import Mathlib

/-!
Verification development for the AIA (Algorithmic Impact Assessment) core:
a shallow embedding of `src/aia_core.py` and `src/auth_manager.py`.

Modelling conventions:
* Python `dict`s with a fixed key schema become Lean structures; `dict.update`
  with a partial dict becomes applying a "patch" structure whose fields are
  `Option`s (a `some` field is a key present in the update dict).
* Python `dict`s with dynamic keys (`dimensions`, `related_assessment_statuses`)
  become association lists `List (String × _)`; assignment `d[k] = v` becomes
  `setKey` (replace in place, else append), lookup becomes `lookupKey`.
* Timestamps (`datetime.datetime.now()`) become an explicit `now : Nat`
  parameter passed to each mutating operation; `datetime.date.today()` at
  construction becomes an explicit `today : String` parameter.
* `uuid.uuid4()` in `add_mitigation_item` becomes an explicit `newId : String`
  parameter (an externally supplied fresh identifier).
* Python `raise ValueError(...)` becomes `Except AIAError _`; the raise sites
  are classified per the spec error taxonomy: the two "not found" raises in the
  mitigation-plan methods are `notFound`, all validation raises are
  `invalidArgument`.  Message texts follow the f-strings, with non-string
  interpolations elided.
* A Python parameter that can be `None` becomes `Option String`
  (`none` = Python `None`); Python string truthiness (`if s:`) is `s ≠ ""`.
-/

/-! ## Association-list helpers (Python dict operations) -/

/-- Lookup of a key in an association list (Python `d[k]` / `k in d`). -/
def lookupKey {β : Type} (k : String) : List (String × β) → Option β
  | [] => none
  | (k2, v) :: rest => if k2 = k then some v else lookupKey k rest

/-- Assignment `d[k] = v` on a Python dict: replace the value of an existing
key in place, otherwise append the new key at the end (insertion order). -/
def setKey {β : Type} (k : String) (v : β) : List (String × β) → List (String × β)
  | [] => [(k, v)]
  | (k2, v2) :: rest => if k2 = k then (k, v) :: rest else (k2, v2) :: setKey k v rest

/-! ## Constants from aia_core.py -/

def AIA_VERSION : String := "1.1"

/-- The 13 fixed impact dimensions (`DIMENSIONS` in aia_core.py). -/
def DIMENSIONS : List String :=
  [ "Human Impact",
    "Contestability and Redress",
    "Explainability and Interpretability",
    "Bias and Fairness",
    "Privacy Risk",
    "Data Representativeness",
    "Autonomy and Oversight",
    "Accountability and Auditability",
    "Security and Resilience",
    "Monitoring and Drift",
    "Ethical Considerations",
    "Legal Compliance",
    "Robustness and Reliability" ]

/-- One entry of the `RISK_CATEGORIES` table: an inclusive score range, a
category name and a required-action description. -/
structure RiskCategoryInfo where
  range : Int × Int
  category : String
  action : String
deriving DecidableEq

def lowAction : String :=
  "Standard deployment procedures. Routine monitoring. Document AIA. Approval typically by Project/System Owner."

def mediumAction : String :=
  "Requires documented Mitigation Plan (Section 9). Enhanced monitoring procedures. Requires review/endorsement by [Specify Role, e.g., AI Governance Committee or relevant Senior Manager]. Approval potentially involves Accountable AI Official oversight."

def highAction : String :=
  "Requires comprehensive Mitigation Plan with clear timelines and owners. Strict oversight and monitoring. Requires formal approval from [Specify Senior Role, e.g., Designated Accountable AI Official, SES Band 1/2]. Limitations on use may be needed."

def severeAction : String :=
  "Requires robust Mitigation Plan addressing all significant risks. Requires highest level approval [Specify Executive Role, e.g., Agency Head / Deputy Secretary / Designated Senior Accountable AI Official]. Deployment may be contingent on significant redesign, specific limitations, independent review, or may be prohibited if risks cannot be adequately mitigated."

/-- The ordered risk-category range table (`RISK_CATEGORIES` in aia_core.py). -/
def RISK_CATEGORIES : List RiskCategoryInfo :=
  [ ⟨(0, 10), "Low", lowAction⟩,
    ⟨(11, 25), "Medium", mediumAction⟩,
    ⟨(26, 40), "High", highAction⟩,
    ⟨(41, 65), "Severe", severeAction⟩ ]

/-! ## Risk classification (`_determine_risk_category`) -/

/-- The `{category, action}` pair stored in `self.risk_category`. -/
structure RiskCat where
  category : String
  action : String
deriving DecidableEq

/-- The loop body of `_determine_risk_category`: scan the table in order,
first inclusive range containing the score wins; fall back to `Undefined`. -/
def findRiskCategory (score : Int) : List RiskCategoryInfo → RiskCat
  | [] => ⟨"Undefined", "Score out of expected range."⟩
  | info :: rest =>
    if info.range.1 ≤ score ∧ score ≤ info.range.2 then ⟨info.category, info.action⟩
    else findRiskCategory score rest

/-- `_determine_risk_category`, as a pure function of the total score
(the method reads `self.total_score` and writes `self.risk_category`). -/
def determine_risk_category (score : Int) : RiskCat :=
  findRiskCategory score RISK_CATEGORIES

/-! ## Nested record fields of the AIA and their update patches -/

/-- `self.technical_specs` dict. -/
structure TechnicalSpecs where
  model_type : String
  algorithms : String
  language_libs : String
  hardware_infra : String
deriving DecidableEq

structure TechnicalSpecsPatch where
  model_type : Option String
  algorithms : Option String
  language_libs : Option String
  hardware_infra : Option String
deriving DecidableEq

/-- `self.technical_specs.update(tech_specs)`. -/
def TechnicalSpecs.updateWith (t : TechnicalSpecs) (p : TechnicalSpecsPatch) : TechnicalSpecs :=
  { model_type := p.model_type.getD t.model_type,
    algorithms := p.algorithms.getD t.algorithms,
    language_libs := p.language_libs.getD t.language_libs,
    hardware_infra := p.hardware_infra.getD t.hardware_infra }

/-- `self.data_details` dict. -/
structure DataDetails where
  sources : String
  volume_velocity : String
  types : String
  retention_policy : String
deriving DecidableEq

structure DataDetailsPatch where
  sources : Option String
  volume_velocity : Option String
  types : Option String
  retention_policy : Option String
deriving DecidableEq

def DataDetails.updateWith (t : DataDetails) (p : DataDetailsPatch) : DataDetails :=
  { sources := p.sources.getD t.sources,
    volume_velocity := p.volume_velocity.getD t.volume_velocity,
    types := p.types.getD t.types,
    retention_policy := p.retention_policy.getD t.retention_policy }

/-- `self.deployment_context` dict. -/
structure DeploymentContext where
  operational_env : String
  target_users_affected : String
  decision_authority : String
deriving DecidableEq

structure DeploymentContextPatch where
  operational_env : Option String
  target_users_affected : Option String
  decision_authority : Option String
deriving DecidableEq

def DeploymentContext.updateWith (t : DeploymentContext) (p : DeploymentContextPatch) :
    DeploymentContext :=
  { operational_env := p.operational_env.getD t.operational_env,
    target_users_affected := p.target_users_affected.getD t.target_users_affected,
    decision_authority := p.decision_authority.getD t.decision_authority }

/-- `self.procurement` dict. -/
structure Procurement where
  method : String
  ethical_reqs : String
deriving DecidableEq

structure ProcurementPatch where
  method : Option String
  ethical_reqs : Option String
deriving DecidableEq

def Procurement.updateWith (t : Procurement) (p : ProcurementPatch) : Procurement :=
  { method := p.method.getD t.method,
    ethical_reqs := p.ethical_reqs.getD t.ethical_reqs }

/-- `self.related_assessments` dict (descriptions; statuses are tracked
separately in `related_assessment_statuses`). -/
structure RelatedAssessments where
  pia_status_desc : String
  pia_ref : String
  other_assessments : String
deriving DecidableEq

/-- The `related_assessments` argument of `set_system_details`: the method
only reads the keys `pia_ref` and `other_assessments` from it. -/
structure RelatedAssessmentsPatch where
  pia_ref : Option String
  other_assessments : Option String
deriving DecidableEq

/-- Per-dimension `{score, justification}` entry. -/
structure DimEntry where
  score : Int
  justification : String
deriving DecidableEq

/-- One entry of `self.mitigation_plan`. -/
structure MitigationItem where
  id : String
  dimension : String
  risk_score_desc : String
  action : String
  responsible : String
  target_date : String
  status : String
deriving DecidableEq

/-- The `**updates` keyword dict of `update_mitigation_item`, over the
canonical item schema (a `some` field is a key present in the dict). -/
structure MitigationPatch where
  id : Option String
  dimension : Option String
  risk_score_desc : Option String
  action : Option String
  responsible : Option String
  target_date : Option String
  status : Option String
deriving DecidableEq

/-- `item.update(updates)`. -/
def MitigationItem.updateWith (item : MitigationItem) (u : MitigationPatch) : MitigationItem :=
  { id := u.id.getD item.id,
    dimension := u.dimension.getD item.dimension,
    risk_score_desc := u.risk_score_desc.getD item.risk_score_desc,
    action := u.action.getD item.action,
    responsible := u.responsible.getD item.responsible,
    target_date := u.target_date.getD item.target_date,
    status := u.status.getD item.status }

/-- `self.approvals['assessor']` slot. -/
structure AssessorSlot where
  name : String
  role : String
  date : String
deriving DecidableEq

structure AssessorPatch where
  name : Option String
  role : Option String
  date : Option String
deriving DecidableEq

def AssessorPatch.empty : AssessorPatch := ⟨none, none, none⟩

def AssessorSlot.updateWith (t : AssessorSlot) (p : AssessorPatch) : AssessorSlot :=
  { name := p.name.getD t.name, role := p.role.getD t.role, date := p.date.getD t.date }

/-- `self.approvals['reviewer']` slot. -/
structure ReviewerSlot where
  name : String
  role : String
  comments : String
  date : String
deriving DecidableEq

structure ReviewerPatch where
  name : Option String
  role : Option String
  comments : Option String
  date : Option String
deriving DecidableEq

def ReviewerPatch.empty : ReviewerPatch := ⟨none, none, none, none⟩

def ReviewerSlot.updateWith (t : ReviewerSlot) (p : ReviewerPatch) : ReviewerSlot :=
  { name := p.name.getD t.name, role := p.role.getD t.role,
    comments := p.comments.getD t.comments, date := p.date.getD t.date }

/-- `self.approvals['approver']` slot. -/
structure ApproverSlot where
  name : String
  role : String
  decision : String
  conditions : String
  date : String
deriving DecidableEq

structure ApproverPatch where
  name : Option String
  role : Option String
  decision : Option String
  conditions : Option String
  date : Option String
deriving DecidableEq

def ApproverPatch.empty : ApproverPatch := ⟨none, none, none, none, none⟩

def ApproverSlot.updateWith (t : ApproverSlot) (p : ApproverPatch) : ApproverSlot :=
  { name := p.name.getD t.name, role := p.role.getD t.role,
    decision := p.decision.getD t.decision, conditions := p.conditions.getD t.conditions,
    date := p.date.getD t.date }

/-! ## The AlgorithmicImpactAssessment record -/

/-- Error taxonomy for the `raise ValueError` sites, per the spec (§7):
`notFound` for the mitigation-item "not found" raises, `invalidArgument`
for all validation raises. -/
inductive AIAError where
  | invalidArgument (msg : String)
  | notFound (msg : String)
deriving DecidableEq

/-- The state of one `AlgorithmicImpactAssessment` instance (all `self.*`
attributes set in `__init__`).  `approvals` is flattened into its three
fixed slots. -/
structure AlgorithmicImpactAssessment where
  aia_version : String
  assessment_date : String
  assessed_by : List String
  referenced_frameworks : String
  system_name : String
  agency_name : String
  system_purpose : String
  technical_specs : TechnicalSpecs
  data_details : DataDetails
  deployment_context : DeploymentContext
  procurement : Procurement
  related_assessments : RelatedAssessments
  dimensions : List (String × DimEntry)
  total_score : Int
  risk_category : RiskCat
  mitigation_plan : List MitigationItem
  approvals_assessor : AssessorSlot
  approvals_reviewer : ReviewerSlot
  approvals_approver : ApproverSlot
  ai_inventory_ref : String
  transparency_statement_link : String
  monitoring_plan_ref : String
  review_frequency : String
  next_review_date : String
  system_id : Option String
  aia_status : String
  related_assessment_statuses : List (String × String)
  creation_date : Nat
  last_modified_date : Nat
deriving DecidableEq

/-- `__init__(system_name, agency_name)`.  The Python defaults for the two
name parameters are "[System Name]" and "[Agency Name]"; `today` stands for
`datetime.date.today().isoformat()` and `now` for `datetime.datetime.now()`. -/
def initAIA (system_name agency_name today : String) (now : Nat) :
    AlgorithmicImpactAssessment where
  aia_version := AIA_VERSION
  assessment_date := today
  assessed_by := []
  referenced_frameworks := ""
  system_name := system_name
  agency_name := agency_name
  system_purpose := ""
  technical_specs := ⟨"", "", "", ""⟩
  data_details := ⟨"", "", "", ""⟩
  deployment_context := ⟨"", "", ""⟩
  procurement := ⟨"", ""⟩
  related_assessments := ⟨"", "", ""⟩
  dimensions := DIMENSIONS.map (fun dim => (dim, ⟨0, ""⟩))
  total_score := 0
  risk_category := ⟨"Low", lowAction⟩
  mitigation_plan := []
  approvals_assessor := ⟨"", "", ""⟩
  approvals_reviewer := ⟨"", "", "", ""⟩
  approvals_approver := ⟨"", "", "", "", ""⟩
  ai_inventory_ref := ""
  transparency_statement_link := ""
  monitoring_plan_ref := ""
  review_frequency := ""
  next_review_date := ""
  system_id := none
  aia_status := "Draft"
  related_assessment_statuses :=
    [("PIA", "Not Started"), ("Security Assessment", "Not Started"),
     ("Human Rights Assessment", "Not Started")]
  creation_date := now
  last_modified_date := now

/-! ## Calculation methods -/

/-- `_calculate_total_score`: sum of the dimension scores, as a function of
the dimensions mapping. -/
def calculate_total_score (dims : List (String × DimEntry)) : Int :=
  (dims.map (fun p => p.2.score)).sum

/-- `_update_risk_assessment`: recompute `total_score`, then recompute
`risk_category` from the stored total. -/
def update_risk_assessment (a : AlgorithmicImpactAssessment) :
    AlgorithmicImpactAssessment :=
  let a := { a with total_score := calculate_total_score a.dimensions }
  { a with risk_category := determine_risk_category a.total_score }

/-! ## Mutation methods -/

/-- `set_metadata(assessed_by, referenced_frameworks="", assessment_date=None)`.
`assessed_by` can be a single string or a list; `referenced_frameworks` is
assigned unconditionally; `assessment_date` is assigned only when truthy. -/
def set_metadata (a : AlgorithmicImpactAssessment) (assessed_by : String ⊕ List String)
    (referenced_frameworks : String) (assessment_date : Option String) (now : Nat) :
    AlgorithmicImpactAssessment :=
  let a := match assessed_by with
    | Sum.inr l => { a with assessed_by := l }
    | Sum.inl s => { a with assessed_by := [s] }
  let a := { a with referenced_frameworks := referenced_frameworks }
  let a := match assessment_date with
    | some d => if d ≠ "" then { a with assessment_date := d } else a
    | none => a
  { a with last_modified_date := now }

/-- `set_system_details(...)`: name/agency/purpose guarded by string
truthiness, the nested dicts patched via `.update(...)`, and the two
recognised `related_assessments` keys copied when present. -/
def set_system_details (a : AlgorithmicImpactAssessment)
    (system_name agency_name purpose : String) (tech_specs : TechnicalSpecsPatch)
    (data_details : DataDetailsPatch) (deployment_context : DeploymentContextPatch)
    (procurement : ProcurementPatch) (related_assessments : RelatedAssessmentsPatch)
    (now : Nat) : AlgorithmicImpactAssessment :=
  let a := if system_name ≠ "" then { a with system_name := system_name } else a
  let a := if agency_name ≠ "" then { a with agency_name := agency_name } else a
  let a := { a with system_purpose := if purpose ≠ "" then purpose else a.system_purpose }
  let a := { a with technical_specs := a.technical_specs.updateWith tech_specs }
  let a := { a with data_details := a.data_details.updateWith data_details }
  let a := { a with deployment_context := a.deployment_context.updateWith deployment_context }
  let a := { a with procurement := a.procurement.updateWith procurement }
  let a := match related_assessments.pia_ref with
    | some v => { a with related_assessments := { a.related_assessments with pia_ref := v } }
    | none => a
  let a := match related_assessments.other_assessments with
    | some v =>
        { a with related_assessments := { a.related_assessments with other_assessments := v } }
    | none => a
  { a with last_modified_date := now }

/-- `set_dimension_score(dimension_name, score, justification="")`.  The
`isinstance(score, int)` check is rendered by the `Int` parameter type. -/
def set_dimension_score (a : AlgorithmicImpactAssessment) (dimension_name : String)
    (score : Int) (justification : String) (now : Nat) :
    Except AIAError AlgorithmicImpactAssessment :=
  if (lookupKey dimension_name a.dimensions).isNone then
    Except.error (AIAError.invalidArgument ("Invalid dimension name: " ++ dimension_name))
  else if ¬ (0 ≤ score ∧ score ≤ 5) then
    Except.error (AIAError.invalidArgument
      ("Score for " ++ dimension_name ++ " must be an integer between 0 and 5."))
  else
    let a := { a with dimensions := setKey dimension_name ⟨score, justification⟩ a.dimensions }
    let a := update_risk_assessment a
    Except.ok { a with last_modified_date := now }

/-- `add_mitigation_item(...)`: append the new item, return its id
(`newId` stands for `str(uuid.uuid4())`).  The Python default for
`status` is "Planned". -/
def add_mitigation_item (a : AlgorithmicImpactAssessment)
    (dimension risk_score_desc action responsible target_date status newId : String)
    (now : Nat) : AlgorithmicImpactAssessment × String :=
  let item : MitigationItem :=
    ⟨newId, dimension, risk_score_desc, action, responsible, target_date, status⟩
  ({ a with mitigation_plan := a.mitigation_plan ++ [item], last_modified_date := now },
   item.id)

/-- The search loop of `update_mitigation_item`: update the first item whose
id matches (the loop breaks after the first match), `none` when no match. -/
def updateFirstItem (item_id : String) (u : MitigationPatch) :
    List MitigationItem → Option (List MitigationItem)
  | [] => none
  | item :: rest =>
    if item.id = item_id then some (item.updateWith u :: rest)
    else (updateFirstItem item_id u rest).map (fun l => item :: l)

/-- `update_mitigation_item(item_id, **updates)`. -/
def update_mitigation_item (a : AlgorithmicImpactAssessment) (item_id : String)
    (u : MitigationPatch) (now : Nat) : Except AIAError AlgorithmicImpactAssessment :=
  match updateFirstItem item_id u a.mitigation_plan with
  | some plan => Except.ok { a with mitigation_plan := plan, last_modified_date := now }
  | none =>
      Except.error (AIAError.notFound ("Mitigation item with ID " ++ item_id ++ " not found."))

/-- `remove_mitigation_item(item_id)`: filter out every item with that id;
error when the length is unchanged. -/
def remove_mitigation_item (a : AlgorithmicImpactAssessment) (item_id : String)
    (now : Nat) : Except AIAError AlgorithmicImpactAssessment :=
  let newPlan := a.mitigation_plan.filter (fun item => item.id ≠ item_id)
  if newPlan.length = a.mitigation_plan.length then
    Except.error (AIAError.notFound ("Mitigation item with ID " ++ item_id ++ " not found."))
  else
    Except.ok { a with mitigation_plan := newPlan, last_modified_date := now }

/-- `set_approval(assessor={}, reviewer={}, approver={})`: each slot is
updated only when the corresponding dict is truthy (non-empty). -/
def set_approval (a : AlgorithmicImpactAssessment) (assessor : AssessorPatch)
    (reviewer : ReviewerPatch) (approver : ApproverPatch) (now : Nat) :
    AlgorithmicImpactAssessment :=
  let a := if assessor ≠ AssessorPatch.empty then
      { a with approvals_assessor := a.approvals_assessor.updateWith assessor } else a
  let a := if reviewer ≠ ReviewerPatch.empty then
      { a with approvals_reviewer := a.approvals_reviewer.updateWith reviewer } else a
  let a := if approver ≠ ApproverPatch.empty then
      { a with approvals_approver := a.approvals_approver.updateWith approver } else a
  { a with last_modified_date := now }

/-- `set_links(inventory_ref="", transparency_link="")`: each field is
assigned whenever the argument `is not None`.  NOTE: the Python parameter
defaults are `""` (that is, `some ""` here), not `None`, so an omitted
argument still passes the guard and overwrites the field with `""`. -/
def set_links (a : AlgorithmicImpactAssessment)
    (inventory_ref transparency_link : Option String) (now : Nat) :
    AlgorithmicImpactAssessment :=
  let a := match inventory_ref with
    | some v => { a with ai_inventory_ref := v }
    | none => a
  let a := match transparency_link with
    | some v => { a with transparency_statement_link := v }
    | none => a
  { a with last_modified_date := now }

/-- `set_monitoring(plan_ref="", frequency="", next_date="")`: same
`is not None` guards with `""` parameter defaults as `set_links`. -/
def set_monitoring (a : AlgorithmicImpactAssessment)
    (plan_ref frequency next_date : Option String) (now : Nat) :
    AlgorithmicImpactAssessment :=
  let a := match plan_ref with
    | some v => { a with monitoring_plan_ref := v }
    | none => a
  let a := match frequency with
    | some v => { a with review_frequency := v }
    | none => a
  let a := match next_date with
    | some v => { a with next_review_date := v }
    | none => a
  { a with last_modified_date := now }

/-- The allowed overall statuses in `set_aia_status`. -/
def allowed_statuses : List String :=
  ["Draft", "In Progress", "Review", "Approved", "Archived"]

/-- `set_aia_status(status)`. -/
def set_aia_status (a : AlgorithmicImpactAssessment) (status : String) (now : Nat) :
    Except AIAError AlgorithmicImpactAssessment :=
  if status ∉ allowed_statuses then
    Except.error (AIAError.invalidArgument "Invalid AIA status. Must be one of: Draft, In Progress, Review, Approved, Archived")
  else
    Except.ok { a with aia_status := status, last_modified_date := now }

/-- The allowed statuses in `set_related_assessment_status`. -/
def allowed_ra_statuses : List String :=
  ["Not Started", "In Progress", "Completed", "N/A"]

/-- `set_related_assessment_status(assessment_name, status)`.  An unknown
`assessment_name` only prints a warning in the source (the `raise` branch is
commented out) and the name is added dynamically; only an invalid `status`
fails. -/
def set_related_assessment_status (a : AlgorithmicImpactAssessment)
    (assessment_name status : String) (now : Nat) :
    Except AIAError AlgorithmicImpactAssessment :=
  if status ∉ allowed_ra_statuses then
    Except.error (AIAError.invalidArgument
      ("Invalid status for " ++ assessment_name ++
       ". Must be one of: Not Started, In Progress, Completed, N/A"))
  else
    Except.ok { a with
      related_assessment_statuses := setKey assessment_name status a.related_assessment_statuses,
      last_modified_date := now }

/-! ## Reachable states -/

/-- One invocation of a mutating method (its arguments, minus the state and
the timestamp). -/
inductive Op where
  | opSetMetadata (assessed_by : String ⊕ List String) (referenced_frameworks : String)
      (assessment_date : Option String)
  | opSetSystemDetails (system_name agency_name purpose : String)
      (tech_specs : TechnicalSpecsPatch) (data_details : DataDetailsPatch)
      (deployment_context : DeploymentContextPatch) (procurement : ProcurementPatch)
      (related_assessments : RelatedAssessmentsPatch)
  | opSetDimensionScore (dimension_name : String) (score : Int) (justification : String)
  | opAddMitigationItem
      (dimension risk_score_desc action responsible target_date status newId : String)
  | opUpdateMitigationItem (item_id : String) (u : MitigationPatch)
  | opRemoveMitigationItem (item_id : String)
  | opSetApproval (assessor : AssessorPatch) (reviewer : ReviewerPatch)
      (approver : ApproverPatch)
  | opSetLinks (inventory_ref transparency_link : Option String)
  | opSetMonitoring (plan_ref frequency next_date : Option String)
  | opSetAiaStatus (status : String)
  | opSetRelatedAssessmentStatus (assessment_name status : String)

/-- Apply one mutating method to a state; infallible methods always return
`Except.ok`. -/
def applyOp (now : Nat) (a : AlgorithmicImpactAssessment) :
    Op → Except AIAError AlgorithmicImpactAssessment
  | Op.opSetMetadata ab rf ad => Except.ok (set_metadata a ab rf ad now)
  | Op.opSetSystemDetails sn an p ts dd dc pr ra =>
      Except.ok (set_system_details a sn an p ts dd dc pr ra now)
  | Op.opSetDimensionScore n s j => set_dimension_score a n s j now
  | Op.opAddMitigationItem d r ac re td st nid =>
      Except.ok (add_mitigation_item a d r ac re td st nid now).1
  | Op.opUpdateMitigationItem i u => update_mitigation_item a i u now
  | Op.opRemoveMitigationItem i => remove_mitigation_item a i now
  | Op.opSetApproval x y z => Except.ok (set_approval a x y z now)
  | Op.opSetLinks i t => Except.ok (set_links a i t now)
  | Op.opSetMonitoring p f n2 => Except.ok (set_monitoring a p f n2 now)
  | Op.opSetAiaStatus s => set_aia_status a s now
  | Op.opSetRelatedAssessmentStatus n s => set_related_assessment_status a n s now

/-- The states reachable from a fresh `__init__` through successful method
calls (a failed call raises and leaves the state unchanged). -/
inductive Reachable : AlgorithmicImpactAssessment → Prop where
  | base (sn an today : String) (now : Nat) : Reachable (initAIA sn an today now)
  | step {a a' : AlgorithmicImpactAssessment} (now : Nat) (op : Op) :
      Reachable a → applyOp now a op = Except.ok a' → Reachable a'

/-! ## auth_manager.py: roles and permissions -/

/-- The ten permission tokens of the `Permissions` class. -/
def allPermissionTokens : List String :=
  ["view_dashboard", "view_register", "add_system", "delete_system",
   "view_aia", "edit_aia", "change_status", "approve_aia", "export_aia",
   "manage_users"]

/-- `ROLE_PERMISSIONS` role table. -/
def ROLE_PERMISSIONS : List (String × List String) :=
  [ ("admin",
     ["view_dashboard", "view_register", "add_system", "delete_system",
      "view_aia", "edit_aia", "change_status", "approve_aia", "export_aia",
      "manage_users"]),
    ("reviewer",
     ["view_dashboard", "view_register", "view_aia", "edit_aia",
      "change_status", "approve_aia", "export_aia"]),
    ("assessor",
     ["view_dashboard", "view_register", "add_system", "view_aia",
      "edit_aia", "export_aia"]),
    ("viewer",
     ["view_dashboard", "view_register", "view_aia", "export_aia"]) ]

/-- The four role names with entries in `ROLE_PERMISSIONS`. -/
def definedRoles : List String := ["admin", "reviewer", "assessor", "viewer"]

/-- `User.has_permission(permission)`, as a function of the user role:
`False` when the role has no table entry, else membership of the token in
the role entry. -/
def has_permission (role permission : String) : Bool :=
  match lookupKey role ROLE_PERMISSIONS with
  | none => false
  | some perms => decide (permission ∈ perms)

/-- The record invariant tying the dimensions mapping and the derived total:
the key set is exactly `DIMENSIONS`, every score is in [0,5], and
`total_score` equals the recomputed sum. -/
def RecordInv (a : AlgorithmicImpactAssessment) : Prop :=
  a.dimensions.map Prod.fst = DIMENSIONS ∧
  (∀ p ∈ a.dimensions, 0 ≤ p.2.score ∧ p.2.score ≤ 5) ∧
  a.total_score = calculate_total_score a.dimensions

/-! ## Theorems -/

/-! ### Association-list lemmas -/

theorem lookupKey_isSome_iff {β : Type} (k : String) (l : List (String × β)) :
    (lookupKey k l).isSome ↔ k ∈ l.map Prod.fst := by
  induction l with
  | nil => simp [lookupKey]
  | cons head tail ih =>
    by_cases hk : head.1 = k
    · simp [lookupKey, hk]
    · simp only [lookupKey, if_neg hk, List.map_cons, List.mem_cons, ih]
      constructor
      · exact fun h => Or.inr h
      · rintro (h | h)
        · exact absurd h.symm hk
        · exact h

theorem lookupKey_setKey_self {β : Type} (k : String) (v : β) (l : List (String × β)) :
    lookupKey k (setKey k v l) = some v := by
  induction l with
  | nil => simp [setKey, lookupKey]
  | cons head tail ih =>
    by_cases hk : head.1 = k
    · simp [setKey, hk, lookupKey]
    · simp [setKey, hk, lookupKey, ih]

theorem setKey_map_fst_of_mem {β : Type} (k : String) (v : β) (l : List (String × β))
    (h : k ∈ l.map Prod.fst) : (setKey k v l).map Prod.fst = l.map Prod.fst := by
  induction l with
  | nil => simp at h
  | cons head tail ih =>
    by_cases hk : head.1 = k
    · simp [setKey, hk]
    · simp only [List.map_cons, List.mem_cons] at h
      rcases h with h | h
      · exact absurd h.symm hk
      · simp [setKey, hk, ih h]

theorem setKey_map_fst_of_not_mem {β : Type} (k : String) (v : β) (l : List (String × β))
    (h : k ∉ l.map Prod.fst) : (setKey k v l).map Prod.fst = l.map Prod.fst ++ [k] := by
  induction l with
  | nil => simp [setKey]
  | cons head tail ih =>
    simp only [List.map_cons, List.mem_cons] at h
    push_neg at h
    have hne : head.1 ≠ k := fun he => h.1 he.symm
    simp [setKey, hne, ih h.2]

theorem mem_setKey {β : Type} (k : String) (v : β) (l : List (String × β))
    (p : String × β) (h : p ∈ setKey k v l) : p = (k, v) ∨ p ∈ l := by
  induction l with
  | nil => simp [setKey] at h; simp [h]
  | cons head tail ih =>
    by_cases hk : head.1 = k
    · simp only [setKey, if_pos hk, List.mem_cons] at h
      rcases h with h | h
      · exact Or.inl h
      · exact Or.inr (List.mem_cons_of_mem _ h)
    · simp only [setKey, if_neg hk, List.mem_cons] at h
      rcases h with h | h
      · exact Or.inr (h ▸ List.mem_cons_self _ _)
      · rcases ih h with h2 | h2
        · exact Or.inl h2
        · exact Or.inr (List.mem_cons_of_mem _ h2)

/-! ### Total-score bound -/

theorem calculate_total_score_bound (l : List (String × DimEntry))
    (h : ∀ p ∈ l, 0 ≤ p.2.score ∧ p.2.score ≤ 5) :
    0 ≤ calculate_total_score l ∧ calculate_total_score l ≤ 5 * l.length := by
  induction l with
  | nil => simp [calculate_total_score]
  | cons head tail ih =>
    have hh := h head (List.mem_cons_self _ _)
    have ht := ih (fun p hp => h p (List.mem_cons_of_mem _ hp))
    simp only [calculate_total_score, List.map_cons, List.sum_cons, List.length_cons] at *
    constructor
    · omega
    · have : (5 : Int) * (tail.length + 1) = 5 * tail.length + 5 := by ring
      omega

/-- Closed form of the range-table scan. -/
theorem determine_risk_category_eq (t : Int) :
    determine_risk_category t =
      if 0 ≤ t ∧ t ≤ 10 then ⟨"Low", lowAction⟩
      else if 11 ≤ t ∧ t ≤ 25 then ⟨"Medium", mediumAction⟩
      else if 26 ≤ t ∧ t ≤ 40 then ⟨"High", highAction⟩
      else if 41 ≤ t ∧ t ≤ 65 then ⟨"Severe", severeAction⟩
      else ⟨"Undefined", "Score out of expected range."⟩ := rfl

/-- C1: for every total t in [0,65], `classifyRisk` yields exactly one of
Low ([0,10]), Medium ([11,25]), High ([26,40]), Severe ([41,65]) with the
fixed action string of the matching `RISK_CATEGORIES` entry, the four
inclusive ranges partitioning [0,65]; and every t outside [0,65] yields
category Undefined with action "Score out of expected range." -/
theorem C1_classifyRisk :
    (∀ t : Int, 0 ≤ t → t ≤ 65 →
      (((determine_risk_category t).category = "Low" ↔ 0 ≤ t ∧ t ≤ 10) ∧
       ((determine_risk_category t).category = "Medium" ↔ 11 ≤ t ∧ t ≤ 25) ∧
       ((determine_risk_category t).category = "High" ↔ 26 ≤ t ∧ t ≤ 40) ∧
       ((determine_risk_category t).category = "Severe" ↔ 41 ≤ t ∧ t ≤ 65) ∧
       (∃ info, info ∈ RISK_CATEGORIES ∧ info.range.1 ≤ t ∧ t ≤ info.range.2 ∧
          determine_risk_category t = ⟨info.category, info.action⟩))) ∧
    (∀ t : Int, t < 0 ∨ 65 < t →
      determine_risk_category t = ⟨"Undefined", "Score out of expected range."⟩) := by
  constructor
  · intro t h0 h65
    rw [determine_risk_category_eq]
    by_cases h1 : 0 ≤ t ∧ t ≤ 10
    · rw [if_pos h1]
      refine ⟨⟨fun _ => h1, fun _ => rfl⟩, ⟨fun h => absurd h (by decide), fun h => by omega⟩,
        ⟨fun h => absurd h (by decide), fun h => by omega⟩,
        ⟨fun h => absurd h (by decide), fun h => by omega⟩,
        ⟨⟨(0, 10), "Low", lowAction⟩, List.mem_cons_self _ _, h1.1, h1.2, rfl⟩⟩
    · rw [if_neg h1]
      by_cases h2 : 11 ≤ t ∧ t ≤ 25
      · rw [if_pos h2]
        refine ⟨⟨fun h => absurd h (by decide), fun h => by omega⟩, ⟨fun _ => h2, fun _ => rfl⟩,
          ⟨fun h => absurd h (by decide), fun h => by omega⟩,
          ⟨fun h => absurd h (by decide), fun h => by omega⟩,
          ⟨⟨(11, 25), "Medium", mediumAction⟩, by simp [RISK_CATEGORIES], h2.1, h2.2, rfl⟩⟩
      · rw [if_neg h2]
        by_cases h3 : 26 ≤ t ∧ t ≤ 40
        · rw [if_pos h3]
          refine ⟨⟨fun h => absurd h (by decide), fun h => by omega⟩,
            ⟨fun h => absurd h (by decide), fun h => by omega⟩, ⟨fun _ => h3, fun _ => rfl⟩,
            ⟨fun h => absurd h (by decide), fun h => by omega⟩,
            ⟨⟨(26, 40), "High", highAction⟩, by simp [RISK_CATEGORIES], h3.1, h3.2, rfl⟩⟩
        · rw [if_neg h3]
          have h4 : 41 ≤ t ∧ t ≤ 65 := by omega
          rw [if_pos h4]
          refine ⟨⟨fun h => absurd h (by decide), fun h => by omega⟩,
            ⟨fun h => absurd h (by decide), fun h => by omega⟩,
            ⟨fun h => absurd h (by decide), fun h => by omega⟩, ⟨fun _ => h4, fun _ => rfl⟩,
            ⟨⟨(41, 65), "Severe", severeAction⟩, by simp [RISK_CATEGORIES], h4.1, h4.2, rfl⟩⟩
  · intro t h
    rw [determine_risk_category_eq]
    rw [if_neg (by omega), if_neg (by omega), if_neg (by omega), if_neg (by omega)]

/-- C1 witness: concrete boundary and out-of-range inputs. -/
theorem C1_classifyRisk_witness :
    (determine_risk_category 10).category = "Low" ∧
    (determine_risk_category 11).category = "Medium" ∧
    (determine_risk_category 41).category = "Severe" ∧
    determine_risk_category 66 = ⟨"Undefined", "Score out of expected range."⟩ :=
  ⟨((C1_classifyRisk.1 10 (by decide) (by decide)).1).mpr (by decide),
   ((C1_classifyRisk.1 11 (by decide) (by decide)).2.1).mpr (by decide),
   ((C1_classifyRisk.1 41 (by decide) (by decide)).2.2.2.1).mpr (by decide),
   C1_classifyRisk.2 66 (Or.inr (by decide))⟩

/-! ### Per-operation frame lemmas (dimensions, total, timestamps) -/

theorem set_metadata_spec (a : AlgorithmicImpactAssessment) (ab : String ⊕ List String)
    (rf : String) (ad : Option String) (now : Nat) :
    (set_metadata a ab rf ad now).dimensions = a.dimensions ∧
    (set_metadata a ab rf ad now).total_score = a.total_score ∧
    (set_metadata a ab rf ad now).creation_date = a.creation_date ∧
    (set_metadata a ab rf ad now).last_modified_date = now := by
  dsimp only [set_metadata]
  refine ⟨?_, ?_, ?_, ?_⟩ <;> (repeat' split) <;> rfl

theorem set_system_details_spec (a : AlgorithmicImpactAssessment)
    (sn an p : String) (ts : TechnicalSpecsPatch) (dd : DataDetailsPatch)
    (dc : DeploymentContextPatch) (pr : ProcurementPatch)
    (ra : RelatedAssessmentsPatch) (now : Nat) :
    (set_system_details a sn an p ts dd dc pr ra now).dimensions = a.dimensions ∧
    (set_system_details a sn an p ts dd dc pr ra now).total_score = a.total_score ∧
    (set_system_details a sn an p ts dd dc pr ra now).creation_date = a.creation_date ∧
    (set_system_details a sn an p ts dd dc pr ra now).last_modified_date = now := by
  dsimp only [set_system_details]
  refine ⟨?_, ?_, ?_, ?_⟩ <;> (repeat' split) <;> rfl

theorem set_approval_spec (a : AlgorithmicImpactAssessment) (x : AssessorPatch)
    (y : ReviewerPatch) (z : ApproverPatch) (now : Nat) :
    (set_approval a x y z now).dimensions = a.dimensions ∧
    (set_approval a x y z now).total_score = a.total_score ∧
    (set_approval a x y z now).creation_date = a.creation_date ∧
    (set_approval a x y z now).last_modified_date = now := by
  dsimp only [set_approval]
  refine ⟨?_, ?_, ?_, ?_⟩ <;> (repeat' split) <;> rfl

theorem set_links_spec (a : AlgorithmicImpactAssessment)
    (i t : Option String) (now : Nat) :
    (set_links a i t now).dimensions = a.dimensions ∧
    (set_links a i t now).total_score = a.total_score ∧
    (set_links a i t now).creation_date = a.creation_date ∧
    (set_links a i t now).last_modified_date = now := by
  dsimp only [set_links]
  refine ⟨?_, ?_, ?_, ?_⟩ <;> (repeat' split) <;> rfl

theorem set_monitoring_spec (a : AlgorithmicImpactAssessment)
    (p f n2 : Option String) (now : Nat) :
    (set_monitoring a p f n2 now).dimensions = a.dimensions ∧
    (set_monitoring a p f n2 now).total_score = a.total_score ∧
    (set_monitoring a p f n2 now).creation_date = a.creation_date ∧
    (set_monitoring a p f n2 now).last_modified_date = now := by
  dsimp only [set_monitoring]
  refine ⟨?_, ?_, ?_, ?_⟩ <;> (repeat' split) <;> rfl

/-! ### Characterization of the fallible operations on success -/

theorem set_aia_status_ok (a : AlgorithmicImpactAssessment) (status : String)
    (now : Nat) (a' : AlgorithmicImpactAssessment)
    (h : set_aia_status a status now = Except.ok a') :
    status ∈ allowed_statuses ∧
    a' = { a with aia_status := status, last_modified_date := now } := by
  unfold set_aia_status at h
  split at h
  · exact absurd h (by simp)
  · next hs =>
    simp only [Except.ok.injEq] at h
    exact ⟨not_not.mp hs, h.symm⟩

theorem set_related_assessment_status_ok (a : AlgorithmicImpactAssessment)
    (name status : String) (now : Nat) (a' : AlgorithmicImpactAssessment)
    (h : set_related_assessment_status a name status now = Except.ok a') :
    status ∈ allowed_ra_statuses ∧
    a' = { a with
      related_assessment_statuses := setKey name status a.related_assessment_statuses,
      last_modified_date := now } := by
  unfold set_related_assessment_status at h
  split at h
  · exact absurd h (by simp)
  · next hs =>
    simp only [Except.ok.injEq] at h
    exact ⟨not_not.mp hs, h.symm⟩

theorem set_dimension_score_ok (a : AlgorithmicImpactAssessment)
    (n : String) (s : Int) (j : String) (now : Nat) (a' : AlgorithmicImpactAssessment)
    (h : set_dimension_score a n s j now = Except.ok a') :
    (lookupKey n a.dimensions).isSome ∧ 0 ≤ s ∧ s ≤ 5 ∧
    a'.dimensions = setKey n ⟨s, j⟩ a.dimensions ∧
    a'.total_score = calculate_total_score a'.dimensions ∧
    a'.risk_category = determine_risk_category a'.total_score ∧
    a'.creation_date = a.creation_date ∧
    a'.last_modified_date = now := by
  unfold set_dimension_score at h
  split at h
  · exact absurd h (by simp)
  · next hlook =>
    split at h
    · exact absurd h (by simp)
    · next hrange =>
      simp only [Except.ok.injEq] at h
      rw [not_not] at hrange
      subst h
      have hsome : (lookupKey n a.dimensions).isSome := by
        cases hx : lookupKey n a.dimensions <;> simp_all
      exact ⟨hsome, hrange.1, hrange.2, rfl, rfl, rfl, rfl, rfl⟩

theorem update_mitigation_item_ok (a : AlgorithmicImpactAssessment)
    (item_id : String) (u : MitigationPatch) (now : Nat)
    (a' : AlgorithmicImpactAssessment)
    (h : update_mitigation_item a item_id u now = Except.ok a') :
    ∃ plan, updateFirstItem item_id u a.mitigation_plan = some plan ∧
      a' = { a with mitigation_plan := plan, last_modified_date := now } := by
  unfold update_mitigation_item at h
  cases hm : updateFirstItem item_id u a.mitigation_plan with
  | none => rw [hm] at h; exact absurd h (by simp)
  | some plan =>
    rw [hm] at h
    simp only [Except.ok.injEq] at h
    exact ⟨plan, rfl, h.symm⟩

theorem remove_mitigation_item_ok (a : AlgorithmicImpactAssessment)
    (item_id : String) (now : Nat) (a' : AlgorithmicImpactAssessment)
    (h : remove_mitigation_item a item_id now = Except.ok a') :
    a' = { a with
      mitigation_plan := a.mitigation_plan.filter (fun item => item.id ≠ item_id),
      last_modified_date := now } := by
  simp only [remove_mitigation_item] at h
  split at h
  · exact absurd h (by simp)
  · simp only [Except.ok.injEq] at h
    exact h.symm

/-! ### The reachable-state invariant -/

theorem recordInv_init (sn an today : String) (now : Nat) :
    RecordInv (initAIA sn an today now) := by
  refine ⟨?_, ?_, ?_⟩
  · show (DIMENSIONS.map fun dim => (dim, (⟨0, ""⟩ : DimEntry))).map Prod.fst = DIMENSIONS
    decide
  · show ∀ p ∈ DIMENSIONS.map fun dim => (dim, (⟨0, ""⟩ : DimEntry)),
      0 ≤ p.2.score ∧ p.2.score ≤ 5
    decide
  · show (0 : Int) = calculate_total_score (DIMENSIONS.map fun dim => (dim, (⟨0, ""⟩ : DimEntry)))
    decide

theorem recordInv_step (now : Nat) (op : Op) {a a' : AlgorithmicImpactAssessment}
    (h : applyOp now a op = Except.ok a') (hinv : RecordInv a) : RecordInv a' := by
  obtain ⟨hkeys, hscores, htotal⟩ := hinv
  cases op with
  | opSetMetadata ab rf ad =>
    simp only [applyOp, Except.ok.injEq] at h
    subst h
    obtain ⟨h1, h2, -, -⟩ := set_metadata_spec a ab rf ad now
    exact ⟨by rw [h1]; exact hkeys, by rw [h1]; exact hscores, by rw [h2, h1]; exact htotal⟩
  | opSetSystemDetails sn an p ts dd dc pr ra =>
    simp only [applyOp, Except.ok.injEq] at h
    subst h
    obtain ⟨h1, h2, -, -⟩ := set_system_details_spec a sn an p ts dd dc pr ra now
    exact ⟨by rw [h1]; exact hkeys, by rw [h1]; exact hscores, by rw [h2, h1]; exact htotal⟩
  | opSetDimensionScore n s j =>
    obtain ⟨hsome, hs0, hs5, hdims, htot, -, -, -⟩ := set_dimension_score_ok a n s j now a' h
    have hmem : n ∈ a.dimensions.map Prod.fst := (lookupKey_isSome_iff n a.dimensions).mp hsome
    refine ⟨?_, ?_, htot⟩
    · rw [hdims, setKey_map_fst_of_mem n _ _ hmem]
      exact hkeys
    · intro p hp
      rw [hdims] at hp
      rcases mem_setKey _ _ _ _ hp with hp | hp
      · rw [hp]
        exact ⟨hs0, hs5⟩
      · exact hscores p hp
  | opAddMitigationItem d r ac re td st nid =>
    simp only [applyOp, Except.ok.injEq] at h
    subst h
    exact ⟨hkeys, hscores, htotal⟩
  | opUpdateMitigationItem i u =>
    obtain ⟨plan, -, rfl⟩ := update_mitigation_item_ok a i u now a' h
    exact ⟨hkeys, hscores, htotal⟩
  | opRemoveMitigationItem i =>
    have := remove_mitigation_item_ok a i now a' h
    subst this
    exact ⟨hkeys, hscores, htotal⟩
  | opSetApproval x y z =>
    simp only [applyOp, Except.ok.injEq] at h
    subst h
    obtain ⟨h1, h2, -, -⟩ := set_approval_spec a x y z now
    exact ⟨by rw [h1]; exact hkeys, by rw [h1]; exact hscores, by rw [h2, h1]; exact htotal⟩
  | opSetLinks i t =>
    simp only [applyOp, Except.ok.injEq] at h
    subst h
    obtain ⟨h1, h2, -, -⟩ := set_links_spec a i t now
    exact ⟨by rw [h1]; exact hkeys, by rw [h1]; exact hscores, by rw [h2, h1]; exact htotal⟩
  | opSetMonitoring p f n2 =>
    simp only [applyOp, Except.ok.injEq] at h
    subst h
    obtain ⟨h1, h2, -, -⟩ := set_monitoring_spec a p f n2 now
    exact ⟨by rw [h1]; exact hkeys, by rw [h1]; exact hscores, by rw [h2, h1]; exact htotal⟩
  | opSetAiaStatus s =>
    obtain ⟨-, rfl⟩ := set_aia_status_ok a s now a' h
    exact ⟨hkeys, hscores, htotal⟩
  | opSetRelatedAssessmentStatus n s =>
    obtain ⟨-, rfl⟩ := set_related_assessment_status_ok a n s now a' h
    exact ⟨hkeys, hscores, htotal⟩

theorem reachable_recordInv {a : AlgorithmicImpactAssessment} (h : Reachable a) :
    RecordInv a := by
  induction h with
  | base sn an today now => exact recordInv_init sn an today now
  | step now op hr hok ih => exact recordInv_step now op hok ih

/-- Any dimensions mapping with the canonical key set and scores in [0,5]
sums to a value in [0,65]. -/
theorem calculate_total_score_in_range (dims : List (String × DimEntry))
    (hkeys : dims.map Prod.fst = DIMENSIONS)
    (hsc : ∀ p ∈ dims, 0 ≤ p.2.score ∧ p.2.score ≤ 5) :
    0 ≤ calculate_total_score dims ∧ calculate_total_score dims ≤ 65 := by
  have hlen : dims.length = 13 := by
    have hc := congrArg List.length hkeys
    simpa [DIMENSIONS] using hc
  have hb := calculate_total_score_bound dims hsc
  rw [hlen] at hb
  omega

/-- C2: in every reachable record state, `total_score` equals the sum of the
13 dimension scores and lies in [0,65]; and `_calculate_total_score` over any
mapping of the 13 canonical dimensions to scores in [0,5] returns the
arithmetic sum, which lies in [0,65]. -/
theorem C2_total_score_derived :
    (∀ a : AlgorithmicImpactAssessment, Reachable a →
       a.total_score = calculate_total_score a.dimensions ∧
       0 ≤ a.total_score ∧ a.total_score ≤ 65) ∧
    (∀ dims : List (String × DimEntry), dims.map Prod.fst = DIMENSIONS →
       (∀ p ∈ dims, 0 ≤ p.2.score ∧ p.2.score ≤ 5) →
       calculate_total_score dims = (dims.map (fun p => p.2.score)).sum ∧
       0 ≤ calculate_total_score dims ∧ calculate_total_score dims ≤ 65) := by
  constructor
  · intro a hr
    obtain ⟨hkeys, hscores, htotal⟩ := reachable_recordInv hr
    have hb := calculate_total_score_in_range a.dimensions hkeys hscores
    rw [htotal]
    exact ⟨rfl, hb.1, hb.2⟩
  · intro dims hkeys hsc
    have hb := calculate_total_score_in_range dims hkeys hsc
    exact ⟨rfl, hb.1, hb.2⟩

/-- C2 witness: the freshly constructed record. -/
theorem C2_total_score_derived_witness :
    (initAIA "Sys" "Agency" "2024-01-01" 0).total_score =
      calculate_total_score (initAIA "Sys" "Agency" "2024-01-01" 0).dimensions ∧
    0 ≤ (initAIA "Sys" "Agency" "2024-01-01" 0).total_score ∧
    (initAIA "Sys" "Agency" "2024-01-01" 0).total_score ≤ 65 :=
  C2_total_score_derived.1 _ (Reachable.base "Sys" "Agency" "2024-01-01" 0)

/-- C7: in every reachable record state, the key set of `dimensions` is
exactly the 13 canonical names and every score is an integer in [0,5];
moreover `set_dimension_score` is the only operation that writes to
`dimensions` (every other successful operation leaves it unchanged). -/
theorem C7_dimensions_keys_invariant :
    (∀ a : AlgorithmicImpactAssessment, Reachable a →
       a.dimensions.map Prod.fst = DIMENSIONS ∧
       ∀ p ∈ a.dimensions, 0 ≤ p.2.score ∧ p.2.score ≤ 5) ∧
    (∀ (now : Nat) (a a' : AlgorithmicImpactAssessment) (op : Op),
       applyOp now a op = Except.ok a' →
       (∀ n s j, op ≠ Op.opSetDimensionScore n s j) →
       a'.dimensions = a.dimensions) := by
  constructor
  · intro a hr
    obtain ⟨hkeys, hscores, -⟩ := reachable_recordInv hr
    exact ⟨hkeys, hscores⟩
  · intro now a a' op h hne
    cases op with
    | opSetMetadata ab rf ad =>
      simp only [applyOp, Except.ok.injEq] at h
      subst h
      exact (set_metadata_spec a ab rf ad now).1
    | opSetSystemDetails sn an p ts dd dc pr ra =>
      simp only [applyOp, Except.ok.injEq] at h
      subst h
      exact (set_system_details_spec a sn an p ts dd dc pr ra now).1
    | opSetDimensionScore n s j => exact absurd rfl (hne n s j)
    | opAddMitigationItem d r ac re td st nid =>
      simp only [applyOp, Except.ok.injEq] at h
      subst h
      rfl
    | opUpdateMitigationItem i u =>
      obtain ⟨plan, -, rfl⟩ := update_mitigation_item_ok a i u now a' h
      rfl
    | opRemoveMitigationItem i =>
      have := remove_mitigation_item_ok a i now a' h
      subst this
      rfl
    | opSetApproval x y z =>
      simp only [applyOp, Except.ok.injEq] at h
      subst h
      exact (set_approval_spec a x y z now).1
    | opSetLinks i t =>
      simp only [applyOp, Except.ok.injEq] at h
      subst h
      exact (set_links_spec a i t now).1
    | opSetMonitoring p f n2 =>
      simp only [applyOp, Except.ok.injEq] at h
      subst h
      exact (set_monitoring_spec a p f n2 now).1
    | opSetAiaStatus s =>
      obtain ⟨-, rfl⟩ := set_aia_status_ok a s now a' h
      rfl
    | opSetRelatedAssessmentStatus n s =>
      obtain ⟨-, rfl⟩ := set_related_assessment_status_ok a n s now a' h
      rfl

/-- C7 witness: the freshly constructed record, and a concrete
non-dimension operation leaving `dimensions` unchanged. -/
theorem C7_dimensions_keys_invariant_witness :
    ((initAIA "Sys" "Agency" "2024-01-01" 0).dimensions.map Prod.fst = DIMENSIONS ∧
     ∀ p ∈ (initAIA "Sys" "Agency" "2024-01-01" 0).dimensions,
       0 ≤ p.2.score ∧ p.2.score ≤ 5) ∧
    (set_links (initAIA "Sys" "Agency" "2024-01-01" 0) (some "inv") (some "link") 5).dimensions =
      (initAIA "Sys" "Agency" "2024-01-01" 0).dimensions :=
  ⟨C7_dimensions_keys_invariant.1 _ (Reachable.base "Sys" "Agency" "2024-01-01" 0),
   C7_dimensions_keys_invariant.2 5 _ _ (Op.opSetLinks (some "inv") (some "link")) rfl
     (fun _ _ _ h => Op.noConfusion h)⟩

/-- C9: every successful mutating operation sets `last_modified_date` to the
current time and leaves `creation_date` unchanged; `creation_date` is set at
construction. -/
theorem C9_timestamps :
    (∀ (now : Nat) (a a' : AlgorithmicImpactAssessment) (op : Op),
       applyOp now a op = Except.ok a' →
       a'.last_modified_date = now ∧ a'.creation_date = a.creation_date) ∧
    (∀ sn an today now, (initAIA sn an today now).creation_date = now) := by
  constructor
  · intro now a a' op h
    cases op with
    | opSetMetadata ab rf ad =>
      simp only [applyOp, Except.ok.injEq] at h
      subst h
      obtain ⟨-, -, h3, h4⟩ := set_metadata_spec a ab rf ad now
      exact ⟨h4, h3⟩
    | opSetSystemDetails sn an p ts dd dc pr ra =>
      simp only [applyOp, Except.ok.injEq] at h
      subst h
      obtain ⟨-, -, h3, h4⟩ := set_system_details_spec a sn an p ts dd dc pr ra now
      exact ⟨h4, h3⟩
    | opSetDimensionScore n s j =>
      obtain ⟨-, -, -, -, -, -, h7, h8⟩ := set_dimension_score_ok a n s j now a' h
      exact ⟨h8, h7⟩
    | opAddMitigationItem d r ac re td st nid =>
      simp only [applyOp, Except.ok.injEq] at h
      subst h
      exact ⟨rfl, rfl⟩
    | opUpdateMitigationItem i u =>
      obtain ⟨plan, -, rfl⟩ := update_mitigation_item_ok a i u now a' h
      exact ⟨rfl, rfl⟩
    | opRemoveMitigationItem i =>
      have := remove_mitigation_item_ok a i now a' h
      subst this
      exact ⟨rfl, rfl⟩
    | opSetApproval x y z =>
      simp only [applyOp, Except.ok.injEq] at h
      subst h
      obtain ⟨-, -, h3, h4⟩ := set_approval_spec a x y z now
      exact ⟨h4, h3⟩
    | opSetLinks i t =>
      simp only [applyOp, Except.ok.injEq] at h
      subst h
      obtain ⟨-, -, h3, h4⟩ := set_links_spec a i t now
      exact ⟨h4, h3⟩
    | opSetMonitoring p f n2 =>
      simp only [applyOp, Except.ok.injEq] at h
      subst h
      obtain ⟨-, -, h3, h4⟩ := set_monitoring_spec a p f n2 now
      exact ⟨h4, h3⟩
    | opSetAiaStatus s =>
      obtain ⟨-, rfl⟩ := set_aia_status_ok a s now a' h
      exact ⟨rfl, rfl⟩
    | opSetRelatedAssessmentStatus n s =>
      obtain ⟨-, rfl⟩ := set_related_assessment_status_ok a n s now a' h
      exact ⟨rfl, rfl⟩
  · intro sn an today now
    rfl

/-- C9 witness: a concrete mutation on a fresh record. -/
theorem C9_timestamps_witness :
    (set_links (initAIA "Sys" "Agency" "2024-01-01" 0) none none 5).last_modified_date = 5 ∧
    (set_links (initAIA "Sys" "Agency" "2024-01-01" 0) none none 5).creation_date =
      (initAIA "Sys" "Agency" "2024-01-01" 0).creation_date :=
  C9_timestamps.1 5 _ _ (Op.opSetLinks none none) rfl

/-- C3: `set_dimension_score` fails with `InvalidArgument` whenever the
dimension name is not canonical or the score is outside [0,5] (the failure
returns an error and produces no successor state, mirroring that the Python
raise precedes every assignment); on valid input it stores both score and
justification and recomputes `total_score` and `risk_category`.  The Python
membership test is against the current `dimensions` keys, which the
hypothesis equates with the canonical 13. -/
theorem C3_setDimensionScore_validation (a : AlgorithmicImpactAssessment)
    (h : a.dimensions.map Prod.fst = DIMENSIONS)
    (name : String) (score : Int) (j : String) (now : Nat) :
    ((name ∉ DIMENSIONS ∨ score < 0 ∨ 5 < score) →
       ∃ msg, set_dimension_score a name score j now =
         Except.error (AIAError.invalidArgument msg)) ∧
    (name ∈ DIMENSIONS → 0 ≤ score → score ≤ 5 →
       ∃ a', set_dimension_score a name score j now = Except.ok a' ∧
         lookupKey name a'.dimensions = some ⟨score, j⟩ ∧
         a'.total_score = calculate_total_score a'.dimensions ∧
         a'.risk_category = determine_risk_category a'.total_score) := by
  constructor
  · intro hbad
    by_cases hmem : name ∈ DIMENSIONS
    · have hscore : ¬ (0 ≤ score ∧ score ≤ 5) := by
        rcases hbad with hbad | hbad
        · exact absurd hmem hbad
        · omega
      have hsome : (lookupKey name a.dimensions).isSome :=
        (lookupKey_isSome_iff name a.dimensions).mpr (by rw [h]; exact hmem)
      have hnn : ¬ ((lookupKey name a.dimensions).isNone = true) := by
        cases hx : lookupKey name a.dimensions
        · rw [hx] at hsome; exact absurd hsome (by simp)
        · simp
      refine ⟨"Score for " ++ name ++ " must be an integer between 0 and 5.", ?_⟩
      unfold set_dimension_score
      rw [if_neg hnn, if_pos hscore]
    · have hnone : lookupKey name a.dimensions = none := by
        cases hx : lookupKey name a.dimensions with
        | none => rfl
        | some v =>
          have : name ∈ a.dimensions.map Prod.fst :=
            (lookupKey_isSome_iff name a.dimensions).mp (by rw [hx]; rfl)
          rw [h] at this
          exact absurd this hmem
      refine ⟨"Invalid dimension name: " ++ name, ?_⟩
      unfold set_dimension_score
      rw [if_pos (by rw [hnone]; rfl)]
  · intro hmem h0 h5
    have hsome : (lookupKey name a.dimensions).isSome :=
      (lookupKey_isSome_iff name a.dimensions).mpr (by rw [h]; exact hmem)
    have hnn : ¬ ((lookupKey name a.dimensions).isNone = true) := by
      cases hx : lookupKey name a.dimensions
      · rw [hx] at hsome; exact absurd hsome (by simp)
      · simp
    have heq : set_dimension_score a name score j now =
        Except.ok { update_risk_assessment
            { a with dimensions := setKey name ⟨score, j⟩ a.dimensions } with
          last_modified_date := now } := by
      unfold set_dimension_score
      rw [if_neg hnn, if_neg (not_not.mpr ⟨h0, h5⟩)]
    refine ⟨_, heq, ?_, ?_, ?_⟩
    · show lookupKey name (setKey name ⟨score, j⟩ a.dimensions) = some ⟨score, j⟩
      exact lookupKey_setKey_self name _ a.dimensions
    · rfl
    · rfl

/-- C3 witness: a valid score on a fresh record. -/
theorem C3_setDimensionScore_validation_witness :
    ∃ a', set_dimension_score (initAIA "Sys" "Agency" "2024-01-01" 0)
        "Privacy Risk" 3 "handles personal data" 1 = Except.ok a' ∧
      lookupKey "Privacy Risk" a'.dimensions = some ⟨3, "handles personal data"⟩ ∧
      a'.total_score = calculate_total_score a'.dimensions ∧
      a'.risk_category = determine_risk_category a'.total_score :=
  (C3_setDimensionScore_validation (initAIA "Sys" "Agency" "2024-01-01" 0) (by decide)
    "Privacy Risk" 3 "handles personal data" 1).2 (by decide) (by decide) (by decide)

/-- C4: evaluation of the code at the failing inputs.  Supplying only the
inventory reference to `set_links` (the other argument then takes its Python
default "", which still passes the `is not None` guard) OVERWRITES the
transparency link with ""; likewise `set_monitoring` with only the frequency
supplied clears the plan reference and next review date, and `set_metadata`
with only the assessor supplied clears `referenced_frameworks`.  This
contradicts the claimed patch semantics for those setters. -/
theorem C4_patch_semantics_failing_inputs :
    (set_links (set_links (initAIA "Sys" "Agency" "2024-01-01" 0)
        (some "inv-1") (some "link-1") 1) (some "inv-2") (some "") 2).transparency_statement_link
      = "" ∧
    (set_links (initAIA "Sys" "Agency" "2024-01-01" 0)
        (some "inv-1") (some "link-1") 1).transparency_statement_link = "link-1" ∧
    (set_monitoring (set_monitoring (initAIA "Sys" "Agency" "2024-01-01" 0)
        (some "plan-1") (some "freq-1") (some "next-1") 1)
        (some "") (some "freq-2") (some "") 2).monitoring_plan_ref = "" ∧
    (set_monitoring (set_monitoring (initAIA "Sys" "Agency" "2024-01-01" 0)
        (some "plan-1") (some "freq-1") (some "next-1") 1)
        (some "") (some "freq-2") (some "") 2).next_review_date = "" ∧
    (set_metadata (set_metadata (initAIA "Sys" "Agency" "2024-01-01" 0)
        (Sum.inl "Assessor A") "Framework X" none 1)
        (Sum.inl "Assessor B") "" none 2).referenced_frameworks = "" :=
  ⟨rfl, rfl, rfl, rfl, rfl⟩

/-- C10: `set_system_details` treats an explicitly supplied empty string for
system_name, agency_name or purpose as not supplied (the field keeps its old
value), while a non-empty supplied value overwrites it. -/
theorem C10_setSystemDetails_empty_string (a : AlgorithmicImpactAssessment)
    (sn an p : String) (ts : TechnicalSpecsPatch) (dd : DataDetailsPatch)
    (dc : DeploymentContextPatch) (pr : ProcurementPatch)
    (ra : RelatedAssessmentsPatch) (now : Nat) :
    (set_system_details a sn an p ts dd dc pr ra now).system_name =
      (if sn = "" then a.system_name else sn) ∧
    (set_system_details a sn an p ts dd dc pr ra now).agency_name =
      (if an = "" then a.agency_name else an) ∧
    (set_system_details a sn an p ts dd dc pr ra now).system_purpose =
      (if p = "" then a.system_purpose else p) := by
  dsimp only [set_system_details]
  refine ⟨?_, ?_, ?_⟩ <;> (repeat' split) <;> simp_all

/-! ### Mitigation-plan search lemmas -/

theorem updateFirstItem_none_iff (item_id : String) (u : MitigationPatch)
    (l : List MitigationItem) :
    updateFirstItem item_id u l = none ↔ ∀ item ∈ l, item.id ≠ item_id := by
  induction l with
  | nil => simp [updateFirstItem]
  | cons head tail ih =>
    by_cases hh : head.id = item_id
    · simp [updateFirstItem, hh]
    · simp only [updateFirstItem, if_neg hh, Option.map_eq_none', ih,
        List.forall_mem_cons]
      exact ⟨fun ht => ⟨hh, ht⟩, And.right⟩

theorem updateFirstItem_some (item_id : String) (u : MitigationPatch) :
    ∀ (l l' : List MitigationItem), updateFirstItem item_id u l = some l' →
      ∃ l1 item l2, l = l1 ++ item :: l2 ∧ (∀ x ∈ l1, x.id ≠ item_id) ∧
        item.id = item_id ∧ l' = l1 ++ item.updateWith u :: l2 := by
  intro l
  induction l with
  | nil => intro l' h; simp [updateFirstItem] at h
  | cons head tail ih =>
    intro l' h
    by_cases hh : head.id = item_id
    · simp only [updateFirstItem, if_pos hh, Option.some.injEq] at h
      exact ⟨[], head, tail, rfl, by simp, hh, h.symm⟩
    · simp only [updateFirstItem, if_neg hh] at h
      cases hrec : updateFirstItem item_id u tail with
      | none => rw [hrec] at h; exact Option.noConfusion h
      | some l2' =>
        rw [hrec] at h
        simp only [Option.map_some', Option.some.injEq] at h
        obtain ⟨l1, item, l2, h1, h2, h3, h4⟩ := ih l2' hrec
        refine ⟨head :: l1, item, l2, by rw [h1]; rfl, ?_, h3, ?_⟩
        · intro x hx
          rcases List.mem_cons.mp hx with rfl | hx2
          · exact hh
          · exact h2 x hx2
        · rw [← h, h4]
          rfl

/-- C5: mitigation-item lifecycle.  `add_mitigation_item` returns the fresh
identifier and appends the item carrying it; `update_mitigation_item` fails
with `NotFound` iff no item in the plan has the given id, and on success
merges exactly the supplied fields into the first matching item in place
(preserving the sequence order and every field, including `id`, that the
partial update does not supply); after a successful
`remove_mitigation_item`, a subsequent update on the same id fails with
`NotFound`. -/
theorem C5_mitigation_lifecycle :
    (∀ (a : AlgorithmicImpactAssessment) (d r ac re td st newId : String) (now : Nat),
       (add_mitigation_item a d r ac re td st newId now).2 = newId ∧
       (add_mitigation_item a d r ac re td st newId now).1.mitigation_plan =
         a.mitigation_plan ++ [⟨newId, d, r, ac, re, td, st⟩]) ∧
    (∀ (a : AlgorithmicImpactAssessment) (item_id : String) (u : MitigationPatch) (now : Nat),
       (∃ msg, update_mitigation_item a item_id u now =
          Except.error (AIAError.notFound msg)) ↔
       ∀ item ∈ a.mitigation_plan, item.id ≠ item_id) ∧
    (∀ (a : AlgorithmicImpactAssessment) (item_id : String) (u : MitigationPatch)
       (now : Nat) (a' : AlgorithmicImpactAssessment),
       update_mitigation_item a item_id u now = Except.ok a' →
       ∃ l1 item l2,
         a.mitigation_plan = l1 ++ item :: l2 ∧
         (∀ x ∈ l1, x.id ≠ item_id) ∧ item.id = item_id ∧
         a'.mitigation_plan = l1 ++ item.updateWith u :: l2 ∧
         (u.id = none → (item.updateWith u).id = item.id) ∧
         (u.dimension = none → (item.updateWith u).dimension = item.dimension) ∧
         (∀ v, u.dimension = some v → (item.updateWith u).dimension = v) ∧
         (u.risk_score_desc = none →
            (item.updateWith u).risk_score_desc = item.risk_score_desc) ∧
         (u.action = none → (item.updateWith u).action = item.action) ∧
         (u.responsible = none → (item.updateWith u).responsible = item.responsible) ∧
         (u.target_date = none → (item.updateWith u).target_date = item.target_date) ∧
         (u.status = none → (item.updateWith u).status = item.status) ∧
         (∀ v, u.status = some v → (item.updateWith u).status = v)) ∧
    (∀ (a : AlgorithmicImpactAssessment) (item_id : String) (now : Nat)
       (a' : AlgorithmicImpactAssessment),
       remove_mitigation_item a item_id now = Except.ok a' →
       ∀ (u : MitigationPatch) (now2 : Nat),
         ∃ msg, update_mitigation_item a' item_id u now2 =
           Except.error (AIAError.notFound msg)) := by
  refine ⟨?_, ?_, ?_, ?_⟩
  · intro a d r ac re td st newId now
    exact ⟨rfl, rfl⟩
  · intro a item_id u now
    cases hx : updateFirstItem item_id u a.mitigation_plan with
    | none =>
      constructor
      · intro _
        exact (updateFirstItem_none_iff item_id u a.mitigation_plan).mp hx
      · intro _
        refine ⟨"Mitigation item with ID " ++ item_id ++ " not found.", ?_⟩
        unfold update_mitigation_item
        rw [hx]
    | some plan =>
      constructor
      · rintro ⟨msg, hmsg⟩
        unfold update_mitigation_item at hmsg
        rw [hx] at hmsg
        exact absurd hmsg (by simp)
      · intro hall
        have hnone := (updateFirstItem_none_iff item_id u a.mitigation_plan).mpr hall
        rw [hnone] at hx
        exact Option.noConfusion hx
  · intro a item_id u now a' h
    obtain ⟨plan, hplan, rfl⟩ := update_mitigation_item_ok a item_id u now a' h
    obtain ⟨l1, item, l2, h1, h2, h3, h4⟩ :=
      updateFirstItem_some item_id u a.mitigation_plan plan hplan
    refine ⟨l1, item, l2, h1, h2, h3, h4, ?_, ?_, ?_, ?_, ?_, ?_, ?_, ?_, ?_⟩ <;>
      first
      | (intro hnone; simp [MitigationItem.updateWith, hnone])
      | (intro v hv; simp [MitigationItem.updateWith, hv])
  · intro a item_id now a' hrem u now2
    have ha' := remove_mitigation_item_ok a item_id now a' hrem
    have hplan : a'.mitigation_plan =
        a.mitigation_plan.filter (fun item => item.id ≠ item_id) := by
      rw [ha']
    have hall : ∀ item ∈ a'.mitigation_plan, item.id ≠ item_id := by
      rw [hplan]
      intro x hx
      simpa using (List.mem_filter.mp hx).2
    refine ⟨"Mitigation item with ID " ++ item_id ++ " not found.", ?_⟩
    unfold update_mitigation_item
    rw [(updateFirstItem_none_iff item_id u a'.mitigation_plan).mpr hall]

/-- C5 witness: a concrete add on a fresh record, and an update on an
id absent from the (empty) plan failing with NotFound. -/
theorem C5_mitigation_lifecycle_witness :
    (add_mitigation_item (initAIA "Sys" "Agency" "2024-01-01" 0) "Bias and Fairness"
        "Potential bias (Score=4)" "Retrain with balanced data" "ML Team"
        "2025-06-30" "Planned" "item-1" 1).2 = "item-1" ∧
    (∃ msg, update_mitigation_item (initAIA "Sys" "Agency" "2024-01-01" 0) "item-1"
        ⟨none, none, none, none, none, none, some "Completed"⟩ 2 =
      Except.error (AIAError.notFound msg)) :=
  ⟨(C5_mitigation_lifecycle.1 (initAIA "Sys" "Agency" "2024-01-01" 0) "Bias and Fairness"
      "Potential bias (Score=4)" "Retrain with balanced data" "ML Team"
      "2025-06-30" "Planned" "item-1" 1).1,
   (C5_mitigation_lifecycle.2.1 (initAIA "Sys" "Agency" "2024-01-01" 0) "item-1"
      ⟨none, none, none, none, none, none, some "Completed"⟩ 2).mpr (by decide)⟩

/-- C6: `has_permission` is true iff the token is in the static permission
set of the role; any role without a table entry gets false for every token
(fail-closed); in particular the viewer role lacks edit_aia and the admin
role has every one of the ten defined tokens. -/
theorem C6_hasPermission :
    (∀ role perm : String, has_permission role perm = true ↔
       ∃ perms, lookupKey role ROLE_PERMISSIONS = some perms ∧ perm ∈ perms) ∧
    (∀ role : String, role ∉ definedRoles →
       ∀ perm : String, has_permission role perm = false) ∧
    has_permission "viewer" "edit_aia" = false ∧
    (∀ p ∈ allPermissionTokens, has_permission "admin" p = true) := by
  refine ⟨?_, ?_, by decide, by decide⟩
  · intro role perm
    unfold has_permission
    cases hx : lookupKey role ROLE_PERMISSIONS with
    | none => simp
    | some perms => simp [hx]
  · intro role hrole perm
    have hnone : lookupKey role ROLE_PERMISSIONS = none := by
      simp only [definedRoles, List.mem_cons, List.not_mem_nil, or_false, not_or] at hrole
      obtain ⟨h1, h2, h3, h4⟩ := hrole
      have g1 : "admin" ≠ role := fun he => h1 he.symm
      have g2 : "reviewer" ≠ role := fun he => h2 he.symm
      have g3 : "assessor" ≠ role := fun he => h3 he.symm
      have g4 : "viewer" ≠ role := fun he => h4 he.symm
      simp [ROLE_PERMISSIONS, lookupKey, g1, g2, g3, g4]
    unfold has_permission
    rw [hnone]

/-- C6 witness: an unrecognized role string is denied a defined token. -/
theorem C6_hasPermission_witness :
    has_permission "superadmin" "edit_aia" = false :=
  C6_hasPermission.2.1 "superadmin" (by decide) "edit_aia"

/-- C8: `set_related_assessment_status` fails with `InvalidArgument` iff the
status is not one of the four canonical values (failure returns an error and
produces no successor state, so nothing is added); any valid status succeeds
for every name, updating the mapping, and a name not already present is
appended to the key set dynamically. -/
theorem C8_relatedAssessmentStatus (a : AlgorithmicImpactAssessment)
    (name status : String) (now : Nat) :
    (status ∉ allowed_ra_statuses →
       ∃ msg, set_related_assessment_status a name status now =
         Except.error (AIAError.invalidArgument msg)) ∧
    (status ∈ allowed_ra_statuses →
       ∃ a', set_related_assessment_status a name status now = Except.ok a' ∧
         a'.related_assessment_statuses =
           setKey name status a.related_assessment_statuses ∧
         lookupKey name a'.related_assessment_statuses = some status ∧
         (name ∉ a.related_assessment_statuses.map Prod.fst →
            a'.related_assessment_statuses.map Prod.fst =
              a.related_assessment_statuses.map Prod.fst ++ [name])) := by
  constructor
  · intro hbad
    refine ⟨"Invalid status for " ++ name ++
      ". Must be one of: Not Started, In Progress, Completed, N/A", ?_⟩
    unfold set_related_assessment_status
    rw [if_pos hbad]
  · intro hgood
    have heq : set_related_assessment_status a name status now =
        Except.ok { a with
          related_assessment_statuses :=
            setKey name status a.related_assessment_statuses,
          last_modified_date := now } := by
      unfold set_related_assessment_status
      rw [if_neg (not_not.mpr hgood)]
    refine ⟨_, heq, rfl, ?_, ?_⟩
    · show lookupKey name (setKey name status a.related_assessment_statuses) = some status
      exact lookupKey_setKey_self name status a.related_assessment_statuses
    · intro hnot
      show (setKey name status a.related_assessment_statuses).map Prod.fst =
        a.related_assessment_statuses.map Prod.fst ++ [name]
      exact setKey_map_fst_of_not_mem name status a.related_assessment_statuses hnot

/-- C8 witness: a valid status for a name outside the predefined set, on a
fresh record. -/
theorem C8_relatedAssessmentStatus_witness :
    ∃ a', set_related_assessment_status (initAIA "Sys" "Agency" "2024-01-01" 0)
        "Algorithm Charter Review" "Completed" 1 = Except.ok a' ∧
      a'.related_assessment_statuses =
        setKey "Algorithm Charter Review" "Completed"
          (initAIA "Sys" "Agency" "2024-01-01" 0).related_assessment_statuses ∧
      lookupKey "Algorithm Charter Review" a'.related_assessment_statuses =
        some "Completed" ∧
      ("Algorithm Charter Review" ∉
          (initAIA "Sys" "Agency" "2024-01-01" 0).related_assessment_statuses.map Prod.fst →
        a'.related_assessment_statuses.map Prod.fst =
          (initAIA "Sys" "Agency" "2024-01-01" 0).related_assessment_statuses.map Prod.fst ++
            ["Algorithm Charter Review"]) :=
  (C8_relatedAssessmentStatus (initAIA "Sys" "Agency" "2024-01-01" 0)
    "Algorithm Charter Review" "Completed" 1).2 (by decide)
